import Mathlib

/-!
Verification of the google-cloud-ops-mcp core: a shallow embedding of the
guardrail validator (internal/guardrail), the time-range resolver
(internal/logging/client.go and internal/monitoring/client.go,
`parseTimeRange`), the top-errors aggregation engine
(internal/logging/top_errors.go, `Client.TopErrors`), and the MCP protocol
engine (internal/mcp/server.go).  Go machine integers never overflow on the
domains exercised here, so they are embedded as `Int`/`Nat`; Go `float64`
percentage arithmetic is embedded as exact rational arithmetic over `ℚ`;
fallible Go functions returning `error` are embedded as `Except`/`Option`.
-/

/-! ## Configuration and guardrail validator (internal/config, internal/guardrail) -/

/-- Limits mirrors config.Limits: max_range_hours, max_log_entries,
max_time_series from the YAML configuration. -/
structure Limits where
  maxRangeHours : Int
  maxLogEntries : Int
  maxTimeSeries : Int
deriving DecidableEq

/-- Config mirrors config.Config: the project allowlist and the limits. -/
structure Config where
  allowedProjectIDs : List String
  limits : Limits
deriving DecidableEq

/-- Nanoseconds per hour; Go's `time.Hour` as an `Int` count of nanoseconds. -/
def nsPerHour : Int := 3600000000000

/-- Config.IsProjectAllowed: the empty allowlist permits every project id,
otherwise the id must be an exact member of the list. -/
def IsProjectAllowed (cfg : Config) (projectID : String) : Bool :=
  if cfg.allowedProjectIDs = [] then true
  else cfg.allowedProjectIDs.contains projectID

/-- Structured form of the error values produced by Guardrail.ValidateTimeRange.
`rangeTooLarge` carries the data interpolated into the Go message
"time range %.1f hours exceeds maximum %d hours" (the requested duration and
the configured bound); `invalidRange` corresponds to
"invalid time range: start time is after end time". -/
inductive RangeCheckError where
  | rangeTooLarge (durationNs : Int) (maxRangeHours : Int)
  | invalidRange
deriving DecidableEq

/-- Guardrail.ValidateTimeRange: computes duration = end - start, rejects
durations above MaxRangeHours, then rejects negative durations, otherwise
accepts.  Instants and durations are in nanoseconds, as in Go's `time`. -/
def ValidateTimeRange (cfg : Config) (startNs endNs : Int) : Except RangeCheckError Unit :=
  let duration := endNs - startNs
  let maxDuration := cfg.limits.maxRangeHours * nsPerHour
  if maxDuration < duration then .error (.rangeTooLarge duration cfg.limits.maxRangeHours)
  else if duration < 0 then .error .invalidRange
  else .ok ()

/-- Guardrail.ClampLogLimit: non-positive requests get the fixed default 200,
requests above MaxLogEntries are cut to MaxLogEntries, others pass through. -/
def ClampLogLimit (cfg : Config) (limit : Int) : Int :=
  if limit ≤ 0 then 200
  else if cfg.limits.maxLogEntries < limit then cfg.limits.maxLogEntries
  else limit

/-- Guardrail.ClampTimeSeriesLimit: non-positive requests get the fixed default
20, requests above MaxTimeSeries are cut to MaxTimeSeries, others pass through. -/
def ClampTimeSeriesLimit (cfg : Config) (limit : Int) : Int :=
  if limit ≤ 0 then 20
  else if cfg.limits.maxTimeSeries < limit then cfg.limits.maxTimeSeries
  else limit

/-- C4: with a positive configured MaxRangeHours, the guardrail time-range check
rejects every pair with end before start reporting the invalid-range error,
rejects every pair whose duration exceeds the bound reporting both the requested
duration and the configured bound, and accepts every other pair, including
arbitrarily short ranges. -/
theorem validateTimeRange_spec (cfg : Config) (startNs endNs : Int)
    (hmax : 0 < cfg.limits.maxRangeHours) :
    (endNs < startNs → ValidateTimeRange cfg startNs endNs = .error .invalidRange)
    ∧ (cfg.limits.maxRangeHours * nsPerHour < endNs - startNs →
        ValidateTimeRange cfg startNs endNs =
          .error (.rangeTooLarge (endNs - startNs) cfg.limits.maxRangeHours))
    ∧ (startNs ≤ endNs → endNs - startNs ≤ cfg.limits.maxRangeHours * nsPerHour →
        ValidateTimeRange cfg startNs endNs = .ok ()) := by
  have hmaxDur : 0 < cfg.limits.maxRangeHours * nsPerHour := by
    have : (0 : Int) < nsPerHour := by norm_num [nsPerHour]
    positivity
  refine ⟨fun hlt => ?_, fun hbig => ?_, fun hle hin => ?_⟩
  · have h1 : ¬ cfg.limits.maxRangeHours * nsPerHour < endNs - startNs := by omega
    have h2 : endNs - startNs < 0 := by omega
    simp [ValidateTimeRange, h1, h2]
  · simp [ValidateTimeRange, hbig]
  · have h1 : ¬ cfg.limits.maxRangeHours * nsPerHour < endNs - startNs := by omega
    have h2 : ¬ endNs - startNs < 0 := by omega
    simp [ValidateTimeRange, h1, h2]

/-- Witness for validateTimeRange_spec at the default config (72 max range
hours): an inverted range is rejected as invalid, a 100-hour range is rejected
as too large, and a 1-second range is accepted. -/
theorem validateTimeRange_spec_witness :
    (0 : Int) < 72
    ∧ ValidateTimeRange ⟨[], ⟨72, 500, 50⟩⟩ 10 0 = .error .invalidRange
    ∧ ValidateTimeRange ⟨[], ⟨72, 500, 50⟩⟩ 0 360000000000000 =
        .error (.rangeTooLarge 360000000000000 72)
    ∧ ValidateTimeRange ⟨[], ⟨72, 500, 50⟩⟩ 0 1000000000 = .ok () := by
  have h0 := validateTimeRange_spec ⟨[], ⟨72, 500, 50⟩⟩ 10 0 (by norm_num)
  have h1 := validateTimeRange_spec ⟨[], ⟨72, 500, 50⟩⟩ 0 360000000000000 (by norm_num)
  have h2 := validateTimeRange_spec ⟨[], ⟨72, 500, 50⟩⟩ 0 1000000000 (by norm_num)
  refine ⟨by norm_num, h0.1 (by norm_num), ?_, h2.2.2 (by norm_num) (by norm_num [nsPerHour])⟩
  have := h1.2.1 (by norm_num [nsPerHour])
  simpa using this

/-- C5: for positive configured maxima, each clamp maps non-positive requests to
its fixed default (200 for log entries, 20 for time series), cuts requests above
the configured maximum down to that maximum, passes through any request in
(0, max], and never fails (it is a total function). -/
theorem clampLimit_spec (cfg : Config) (requested : Int)
    (hlog : 0 < cfg.limits.maxLogEntries) (hts : 0 < cfg.limits.maxTimeSeries) :
    (requested ≤ 0 → ClampLogLimit cfg requested = 200 ∧ ClampTimeSeriesLimit cfg requested = 20)
    ∧ (cfg.limits.maxLogEntries < requested →
        ClampLogLimit cfg requested = cfg.limits.maxLogEntries)
    ∧ (cfg.limits.maxTimeSeries < requested →
        ClampTimeSeriesLimit cfg requested = cfg.limits.maxTimeSeries)
    ∧ (0 < requested → requested ≤ cfg.limits.maxLogEntries →
        ClampLogLimit cfg requested = requested)
    ∧ (0 < requested → requested ≤ cfg.limits.maxTimeSeries →
        ClampTimeSeriesLimit cfg requested = requested) := by
  refine ⟨fun hle => ?_, fun hbig => ?_, fun hbig => ?_, fun hpos hle => ?_, fun hpos hle => ?_⟩
  · simp [ClampLogLimit, ClampTimeSeriesLimit, hle]
  · have hnp : ¬ requested ≤ 0 := by omega
    simp [ClampLogLimit, hnp, hbig]
  · have hnp : ¬ requested ≤ 0 := by omega
    simp [ClampTimeSeriesLimit, hnp, hbig]
  · have hnp : ¬ requested ≤ 0 := by omega
    have hnb : ¬ cfg.limits.maxLogEntries < requested := by omega
    simp [ClampLogLimit, hnp, hnb]
  · have hnp : ¬ requested ≤ 0 := by omega
    have hnb : ¬ cfg.limits.maxTimeSeries < requested := by omega
    simp [ClampTimeSeriesLimit, hnp, hnb]

/-- Witness for clampLimit_spec at the default config (500 log entries, 50 time
series): requests 0, 1000 and 42 give 200/20, 500/50 and 42/42 respectively. -/
theorem clampLimit_spec_witness :
    (ClampLogLimit ⟨[], ⟨72, 500, 50⟩⟩ 0 = 200 ∧ ClampTimeSeriesLimit ⟨[], ⟨72, 500, 50⟩⟩ 0 = 20)
    ∧ ClampLogLimit ⟨[], ⟨72, 500, 50⟩⟩ 1000 = 500
    ∧ ClampTimeSeriesLimit ⟨[], ⟨72, 500, 50⟩⟩ 1000 = 50
    ∧ ClampLogLimit ⟨[], ⟨72, 500, 50⟩⟩ 42 = 42
    ∧ ClampTimeSeriesLimit ⟨[], ⟨72, 500, 50⟩⟩ 42 = 42 := by
  have h0 := clampLimit_spec ⟨[], ⟨72, 500, 50⟩⟩ 0 (by norm_num) (by norm_num)
  have h1 := clampLimit_spec ⟨[], ⟨72, 500, 50⟩⟩ 1000 (by norm_num) (by norm_num)
  have h2 := clampLimit_spec ⟨[], ⟨72, 500, 50⟩⟩ 42 (by norm_num) (by norm_num)
  exact ⟨h0.1 (by norm_num), h1.2.1 (by norm_num), h1.2.2.1 (by norm_num),
    h2.2.2.2.1 (by norm_num) (by norm_num), h2.2.2.2.2 (by norm_num) (by norm_num)⟩

/-- C10: for a non-positive request the clamps return their fixed defaults (200
for log entries, 20 for time series) without comparing them to the configured
maximum, so under a configuration with max_log_entries below 200 (resp.
max_time_series below 20) the clamped result exceeds the configured maximum,
whereas every positive request is capped at that maximum. -/
theorem clampLimit_default_ignores_max (cfg : Config) (r s : Int)
    (hlog : 0 < cfg.limits.maxLogEntries) (hlogLt : cfg.limits.maxLogEntries < 200)
    (hts : 0 < cfg.limits.maxTimeSeries) (htsLt : cfg.limits.maxTimeSeries < 20)
    (hr : r ≤ 0) (hs : 0 < s) :
    (ClampLogLimit cfg r = 200 ∧ cfg.limits.maxLogEntries < ClampLogLimit cfg r)
    ∧ (ClampTimeSeriesLimit cfg r = 20 ∧ cfg.limits.maxTimeSeries < ClampTimeSeriesLimit cfg r)
    ∧ ClampLogLimit cfg s ≤ cfg.limits.maxLogEntries
    ∧ ClampTimeSeriesLimit cfg s ≤ cfg.limits.maxTimeSeries := by
  have hnp : ¬ s ≤ 0 := by omega
  refine ⟨⟨?_, ?_⟩, ⟨?_, ?_⟩, ?_, ?_⟩
  · simp [ClampLogLimit, hr]
  · simp [ClampLogLimit, hr]; omega
  · simp [ClampTimeSeriesLimit, hr]
  · simp [ClampTimeSeriesLimit, hr]; omega
  · by_cases hb : cfg.limits.maxLogEntries < s
    · simp [ClampLogLimit, hnp, hb]
    · simp [ClampLogLimit, hnp, hb]; omega
  · by_cases hb : cfg.limits.maxTimeSeries < s
    · simp [ClampTimeSeriesLimit, hnp, hb]
    · simp [ClampTimeSeriesLimit, hnp, hb]; omega

/-- Witness for clampLimit_default_ignores_max at a configuration with
max_log_entries 100 and max_time_series 10: request 0 clamps to 200 and 20,
exceeding both maxima, while request 5 stays within them. -/
theorem clampLimit_default_ignores_max_witness :
    (ClampLogLimit ⟨[], ⟨72, 100, 10⟩⟩ 0 = 200
        ∧ (⟨[], ⟨72, 100, 10⟩⟩ : Config).limits.maxLogEntries < ClampLogLimit ⟨[], ⟨72, 100, 10⟩⟩ 0)
    ∧ (ClampTimeSeriesLimit ⟨[], ⟨72, 100, 10⟩⟩ 0 = 20
        ∧ (⟨[], ⟨72, 100, 10⟩⟩ : Config).limits.maxTimeSeries <
            ClampTimeSeriesLimit ⟨[], ⟨72, 100, 10⟩⟩ 0)
    ∧ ClampLogLimit ⟨[], ⟨72, 100, 10⟩⟩ 5 ≤ (⟨[], ⟨72, 100, 10⟩⟩ : Config).limits.maxLogEntries
    ∧ ClampTimeSeriesLimit ⟨[], ⟨72, 100, 10⟩⟩ 5 ≤
        (⟨[], ⟨72, 100, 10⟩⟩ : Config).limits.maxTimeSeries :=
  clampLimit_default_ignores_max ⟨[], ⟨72, 100, 10⟩⟩ 0 5 (by norm_num) (by norm_num)
    (by norm_num) (by norm_num) (by norm_num) (by norm_num)

/-! ## Time-range resolver (parseTimeRange in internal/logging/client.go and
internal/monitoring/client.go; the two copies are textually identical and are
embedded once).  The Go function reads `time.Now()` internally; that ambient
clock read is made explicit here as the `now` argument (nanoseconds since the
Unix epoch), so the embedding is a function of the instant the wall clock
happened to show during the call. -/

/-- Numeric value of a decimal digit list, most significant first. -/
def digitsToNat (ds : List Char) : Nat :=
  ds.foldl (fun a c => a * 10 + (c.toNat - 48)) 0

/-- Nanoseconds per Go duration unit, for the unit suffixes accepted by Go's
`time.ParseDuration` ("ns", "us"/"µs"/"μs", "ms", "s", "m", "h"). -/
def durUnitNs (u : List Char) : Option Int :=
  if u = ['n', 's'] then some 1
  else if u = ['u', 's'] then some 1000
  else if u = ['µ', 's'] then some 1000
  else if u = ['μ', 's'] then some 1000
  else if u = ['m', 's'] then some 1000000
  else if u = ['s'] then some 1000000000
  else if u = ['m'] then some 60000000000
  else if u = ['h'] then some 3600000000000
  else none

/-- Body of Go's `time.ParseDuration` after the optional sign: one or more
groups of decimal digits followed by a unit suffix, summed in nanoseconds.
Fractional components ("1.5h") are not modelled (they are rejected here; no
input exercised by the specification uses them).  The fuel argument bounds the
recursion; each step consumes at least one character, so fuel = length + 1 is
always sufficient. -/
def parseDurBody : Nat → List Char → Option Int
  | 0, _ => none
  | _, [] => none
  | Nat.succ fuel, cs =>
    let ds := cs.takeWhile Char.isDigit
    let r1 := cs.dropWhile Char.isDigit
    if ds = [] then none
    else
      let us := r1.takeWhile (fun c => ¬ c.isDigit)
      let r2 := r1.dropWhile (fun c => ¬ c.isDigit)
      match durUnitNs us with
      | none => none
      | some mult =>
        let v := (digitsToNat ds : Int) * mult
        match r2 with
        | [] => some v
        | _ =>
          match parseDurBody fuel r2 with
          | some rest => some (v + rest)
          | none => none

/-- Go's `time.ParseDuration` on the integer fragment it accepts: an optional
sign, the special case "0", else digit+unit groups.  Returns nanoseconds. -/
def parseGoDuration (s : String) : Option Int :=
  let cs := s.data
  let signRest : Bool × List Char :=
    match cs with
    | '-' :: r => (true, r)
    | '+' :: r => (false, r)
    | r => (false, r)
  let neg := signRest.1
  let rest := signRest.2
  if rest = ['0'] then some 0
  else
    match parseDurBody (rest.length + 1) rest with
    | some v => some (if neg then -v else v)
    | none => none

/-- Leap-year test of the proleptic Gregorian calendar. -/
def isLeapYear (y : Int) : Bool :=
  (y % 4 == 0 && y % 100 != 0) || y % 400 == 0

/-- Number of days in the given month of the given year. -/
def daysInMonth (y m : Int) : Int :=
  if m = 2 then (if isLeapYear y then 29 else 28)
  else if m = 4 ∨ m = 6 ∨ m = 9 ∨ m = 11 then 30
  else 31

/-- Days from the Unix epoch (1970-01-01) to the given civil date, by the
standard era-based conversion. -/
def daysFromCivil (y m d : Int) : Int :=
  let yy := if m ≤ 2 then y - 1 else y
  let era := (if 0 ≤ yy then yy else yy - 399) / 400
  let yoe := yy - era * 400
  let mp := (m + 9) % 12
  let doy := (153 * mp + 2) / 5 + d - 1
  let doe := yoe * 365 + yoe / 4 - yoe / 100 + doy
  era * 146097 + doe - 719468

/-- Zone suffix of an RFC3339 timestamp: "Z" or a signed "hh:mm" offset,
returned in seconds east of UTC. -/
def parseZoneOffset : List Char → Option Int
  | ['Z'] => some 0
  | [sgn, h1, h2, ':', m1, m2] =>
    if (sgn = '+' ∨ sgn = '-') ∧ h1.isDigit ∧ h2.isDigit ∧ m1.isDigit ∧ m2.isDigit then
      let hh : Int := (digitsToNat [h1, h2] : Nat)
      let mm : Int := (digitsToNat [m1, m2] : Nat)
      if hh ≤ 23 ∧ mm ≤ 59 then
        let off := hh * 3600 + mm * 60
        some (if sgn = '-' then -off else off)
      else none
    else none
  | _ => none

/-- Optional fractional-second part (up to nine digits, as nanoseconds) followed
by the zone suffix. -/
def parseFracAndZone (cs : List Char) : Option (Int × Int) :=
  match cs with
  | '.' :: rest =>
    let ds := rest.takeWhile Char.isDigit
    let rest2 := rest.dropWhile Char.isDigit
    if ds = [] ∨ 9 < ds.length then none
    else (parseZoneOffset rest2).map
      (fun off => (((digitsToNat ds : Nat) : Int) * ((10 : Int) ^ (9 - ds.length)), off))
  | _ => (parseZoneOffset cs).map (fun off => ((0 : Int), off))

/-- Go's `time.Parse(time.RFC3339, s)` modelled on the strict RFC3339 shape
"YYYY-MM-DDTHH:MM:SS[.fff](Z|±hh:mm)": field ranges are validated and the
instant is returned in nanoseconds since the Unix epoch (leap seconds are not
modelled; no specification input exercises the success path). -/
def parseRFC3339 (s : String) : Option Int :=
  match s.data with
  | y1 :: y2 :: y3 :: y4 :: '-' :: mo1 :: mo2 :: '-' :: d1 :: d2 :: 'T' ::
      h1 :: h2 :: ':' :: mi1 :: mi2 :: ':' :: sc1 :: sc2 :: rest =>
    if y1.isDigit && y2.isDigit && y3.isDigit && y4.isDigit && mo1.isDigit && mo2.isDigit
        && d1.isDigit && d2.isDigit && h1.isDigit && h2.isDigit && mi1.isDigit && mi2.isDigit
        && sc1.isDigit && sc2.isDigit then
      let yr : Int := (digitsToNat [y1, y2, y3, y4] : Nat)
      let mo : Int := (digitsToNat [mo1, mo2] : Nat)
      let dy : Int := (digitsToNat [d1, d2] : Nat)
      let hr : Int := (digitsToNat [h1, h2] : Nat)
      let mi : Int := (digitsToNat [mi1, mi2] : Nat)
      let sc : Int := (digitsToNat [sc1, sc2] : Nat)
      if 1 ≤ mo ∧ mo ≤ 12 ∧ 1 ≤ dy ∧ dy ≤ daysInMonth yr mo ∧ hr ≤ 23 ∧ mi ≤ 59 ∧ sc ≤ 59 then
        match parseFracAndZone rest with
        | some fz =>
          some ((daysFromCivil yr mo dy * 86400 + hr * 3600 + mi * 60 + sc - fz.2)
                  * 1000000000 + fz.1)
        | none => none
      else none
    else none
  | _ => none

/-- TimeRange mirrors logging.TimeRange / monitoring.TimeRange: two strings,
each either RFC3339, a relative offset, "now" (end only) or empty. -/
structure TimeRange where
  start : String
  endStr : String
deriving DecidableEq

/-- parseTimeRange (identical in internal/logging/client.go and
internal/monitoring/client.go): end empty or "now" means the current instant,
else RFC3339; start empty means current instant minus the fixed 30-minute
default lookback, start beginning with a dash means current instant minus the
parsed remainder as a duration, else RFC3339.  `now` is the value the internal
`time.Now()` call happened to return. -/
def parseTimeRange (now : Int) (tr : TimeRange) : Except String (Int × Int) :=
  let endRes : Except String Int :=
    if tr.endStr = "" ∨ tr.endStr = "now" then .ok now
    else
      match parseRFC3339 tr.endStr with
      | some t => .ok t
      | none => .error "invalid end time"
  match endRes with
  | .error e => .error e
  | .ok endTime =>
    let startRes : Except String Int :=
      if tr.start = "" then .ok (now - 30 * 60 * 1000000000)
      else if tr.start.data.head? = some '-' then
        match parseGoDuration (tr.start.drop 1) with
        | some d => .ok (now - d)
        | none => .error "invalid relative start time"
      else
        match parseRFC3339 tr.start with
        | some t => .ok t
        | none => .error "invalid start time"
    match startRes with
    | .error e => .error e
    | .ok startTime => .ok (startTime, endTime)

lemma parseGoDuration_1h : parseGoDuration "1h" = some 3600000000000 := by
  decide

lemma parseTimeRange_rel1h (T : Int) :
    parseTimeRange T { start := "-1h", endStr := "now" } = .ok (T - 3600000000000, T) := by
  have hd : ("-1h".drop 1) = "1h" := by decide
  simp [parseTimeRange, hd, parseGoDuration_1h]

lemma parseTimeRange_defaultLookback (T : Int) :
    parseTimeRange T { start := "", endStr := "" } = .ok (T - 1800000000000, T) := by
  norm_num [parseTimeRange]

lemma parseTimeRange_notATime (T : Int) :
    parseTimeRange T { start := "not-a-time", endStr := "" } = .error "invalid start time" := by
  have hp : parseRFC3339 "not-a-time" = none := by decide
  simp [parseTimeRange, hp]

/-- C6: against reference instant T, start "-1h" with end "now" resolves to the
pair [T minus one hour, T]; empty start and end resolve to [T minus the fixed
30-minute default lookback, T]; and start "not-a-time" is rejected with the
parse error "invalid start time". -/
theorem parseTimeRange_resolution (T : Int) :
    parseTimeRange T { start := "-1h", endStr := "now" } = .ok (T - 3600000000000, T)
    ∧ parseTimeRange T { start := "", endStr := "" } = .ok (T - 1800000000000, T)
    ∧ parseTimeRange T { start := "not-a-time", endStr := "" } = .error "invalid start time" :=
  ⟨parseTimeRange_rel1h T, parseTimeRange_defaultLookback T, parseTimeRange_notATime T⟩

/-- C7: the Go resolver does not take a caller-supplied reference instant; it
reads the ambient clock (`time.Now()`) inside the function, modelled here by
the `now` argument.  Two evaluations on the same input strings at different
ambient instants (here 0 and two hours later) produce different resolved pairs,
so for fixed input strings the resolver's result is not determined by its
caller-visible inputs, contradicting the claimed caller-supplied-instant
design. -/
theorem parseTimeRange_ambient_clock_dependence :
    parseTimeRange 0 { start := "-1h", endStr := "now" }
      ≠ parseTimeRange 7200000000000 { start := "-1h", endStr := "now" } := by
  rw [parseTimeRange_rel1h, parseTimeRange_rel1h]
  intro h
  simp only [Except.ok.injEq, Prod.mk.injEq] at h
  omega

/-! ## Top-errors aggregation engine (internal/logging/top_errors.go)

The scan loop of Client.TopErrors consumes at most maxScan records from the
upstream iterator and maintains one aggregate per distinct grouping key in a Go
map.  The map is embedded as an insertion-ordered association list (one entry
per key, exactly the map's contents).  The later conversion `for _, g := range
groups` ranges over the map in an order Go leaves unspecified, and
`sort.Slice` guarantees only the comparator ordering (it is not stable), so
the emitted group list is embedded relationally: any count-descending
permutation of the aggregates, truncated to the clamped limit, is an
admissible output of the code. -/

/-- LogEntry restricted to the fields the aggregation reads.  jsonMessage is
JSONPayload["message"] when that key holds a string, and none otherwise. -/
structure LogEntry where
  timestamp : String
  severity : String
  logName : String
  resourceType : String
  textPayload : String
  jsonMessage : Option String
  insertId : String
deriving DecidableEq

/-- errorGroupBuilder mirrors the per-key running aggregate. -/
structure GroupBuilder where
  key : String
  count : Nat
  firstSeen : String
  lastSeen : String
  sampleEntry : Option LogEntry
deriving DecidableEq

/-- TopErrorsStats mirrors logging.TopErrorsStats. -/
structure TopErrorsStats where
  totalErrors : Nat
  uniqueGroups : Nat
  scannedLogs : Nat
deriving DecidableEq

/-- TopErrorsParams mirrors logging.TopErrorsParams. -/
structure TopErrorsParams where
  projectId : String
  timeRange : TimeRange
  groupBy : String
  limit : Int

/-- getGroupKey: the grouping key for one record under the caller-selected
strategy; "message" uses the text payload, falling back to the JSON payload's
"message" string, truncated to its first 100 characters (the Go code slices
the first 100 bytes; on the ASCII payloads at issue these coincide). -/
def getGroupKey (entry : LogEntry) (groupBy : String) : String :=
  if groupBy = "log_name" then entry.logName
  else if groupBy = "resource_type" then entry.resourceType
  else if groupBy = "message" then
    let msg := if entry.textPayload = "" then entry.jsonMessage.getD "" else entry.textPayload
    if 100 < msg.length then msg.take 100 else msg
  else entry.logName

/-- Update of one aggregate for a further record with the same key: increment
the count and widen the first/last-seen window (Go compares the RFC3339
timestamp strings lexicographically). -/
def bumpGroup (g : GroupBuilder) (e : LogEntry) : GroupBuilder :=
  { g with
    count := g.count + 1,
    firstSeen := if e.timestamp < g.firstSeen then e.timestamp else g.firstSeen,
    lastSeen := if g.lastSeen < e.timestamp then e.timestamp else g.lastSeen }

/-- The map update `groups[key]` performed for one scanned record: bump the
existing aggregate for the key, or insert a fresh aggregate of count 1 whose
sample is this first record for the key. -/
def upsertGroup (e : LogEntry) (key : String) : List GroupBuilder → List GroupBuilder
  | [] => [⟨key, 1, e.timestamp, e.timestamp, some e⟩]
  | g :: gs => if g.key = key then bumpGroup g e :: gs else g :: upsertGroup e key gs

/-- The fixed scan cap maxScan = 1000 of the TopErrors loop. -/
def maxScan : Nat := 1000

/-- The scan loop: consume records until the source is exhausted or maxScan
records have been scanned, upserting each into the aggregate map. -/
def aggregateGroups (records : List LogEntry) (groupBy : String) : List GroupBuilder :=
  (records.take maxScan).foldl (fun gs e => upsertGroup e (getGroupKey e groupBy) gs) []

/-- The running total summed while converting the map to a slice: the sum of
all group counts. -/
def totalErrorsOf (gs : List GroupBuilder) : Nat :=
  (gs.map (fun g => g.count)).sum

/-- Clamp of the requested top-N: non-positive requests default to 10,
requests above 50 are cut to 50. -/
def clampTopErrorsLimit (l : Int) : Int :=
  if l ≤ 0 then 10 else if 50 < l then 50 else l

/-- Default of the group_by parameter: empty means "log_name". -/
def effectiveGroupBy (g : String) : String :=
  if g = "" then "log_name" else g

/-- One group's percentage of the total scanned error count, as computed in Go
float64 arithmetic, embedded exactly over `ℚ`: zero when the total is zero,
else count divided by total times 100. -/
def percentageOf (count totalErrors : Nat) : ℚ :=
  if 0 < totalErrors then (count : ℚ) / (totalErrors : ℚ) * 100 else 0

/-- The deterministic part of the TopErrors result: the aggregates (as the
map's contents, in insertion order), the clamped top-N, and the stats block,
all computed before the emitted list is truncated. -/
structure TopErrorsOutcome where
  groups : List GroupBuilder
  limit : Nat
  stats : TopErrorsStats
deriving DecidableEq

/-- TopErrors after a scan of the given upstream record sequence: aggregation,
limit clamping and stats exactly as in the source.  The emitted group list is
not a field here because the code does not determine it (see AdmissibleEmit). -/
def topErrorsOutcome (records : List LogEntry) (p : TopErrorsParams) : TopErrorsOutcome :=
  let gs := aggregateGroups records (effectiveGroupBy p.groupBy)
  { groups := gs,
    limit := (clampTopErrorsLimit p.limit).toNat,
    stats := { totalErrors := totalErrorsOf gs,
               uniqueGroups := gs.length,
               scannedLogs := (records.take maxScan).length } }

/-- Sortedness in the order guaranteed by `sort.Slice` with the comparator
`count_i > count_j`: every later element's count is at most every earlier
element's count. -/
def SortedByCountDesc (gs : List GroupBuilder) : Prop :=
  gs.Pairwise (fun a b => b.count ≤ a.count)

/-- The emitted group lists the Go code can produce from the aggregates: Go
ranges over the map in an unspecified order, `sort.Slice` (not stable)
guarantees only the comparator ordering, and the slice is then truncated to
the clamped limit.  Every count-descending permutation of the aggregates,
truncated, is admissible. -/
def AdmissibleEmit (gs : List GroupBuilder) (limit : Nat) (out : List GroupBuilder) : Prop :=
  ∃ sorted, gs.Perm sorted ∧ SortedByCountDesc sorted ∧ out = sorted.take limit

lemma totalErrorsOf_nil : totalErrorsOf [] = 0 := rfl

lemma totalErrorsOf_cons (g : GroupBuilder) (gs : List GroupBuilder) :
    totalErrorsOf (g :: gs) = g.count + totalErrorsOf gs := by
  simp [totalErrorsOf]

lemma totalErrorsOf_upsertGroup (e : LogEntry) (key : String) (gs : List GroupBuilder) :
    totalErrorsOf (upsertGroup e key gs) = totalErrorsOf gs + 1 := by
  induction gs with
  | nil => simp [upsertGroup, totalErrorsOf]
  | cons g gs ih =>
    by_cases h : g.key = key
    · simp [upsertGroup, h, totalErrorsOf_cons, bumpGroup]
      omega
    · simp [upsertGroup, h, totalErrorsOf_cons, ih]
      omega

lemma totalErrorsOf_foldl (l : List LogEntry) (groupBy : String) (gs : List GroupBuilder) :
    totalErrorsOf (l.foldl (fun acc e => upsertGroup e (getGroupKey e groupBy) acc) gs)
      = totalErrorsOf gs + l.length := by
  induction l generalizing gs with
  | nil => simp
  | cons e l ih =>
    simp only [List.foldl_cons, ih, totalErrorsOf_upsertGroup, List.length_cons]
    omega

lemma totalErrorsOf_aggregateGroups (records : List LogEntry) (groupBy : String) :
    totalErrorsOf (aggregateGroups records groupBy) = (records.take maxScan).length := by
  have := totalErrorsOf_foldl (records.take maxScan) groupBy []
  simpa [aggregateGroups, totalErrorsOf_nil] using this

lemma sum_percentageOf (gs : List GroupBuilder) (T : Nat) (hT : 0 < T) :
    (gs.map (fun g => percentageOf g.count T)).sum
      = (totalErrorsOf gs : ℚ) / (T : ℚ) * 100 := by
  induction gs with
  | nil => simp [totalErrorsOf]
  | cons g gs ih =>
    have hT' : ((T : ℚ)) ≠ 0 := Nat.cast_ne_zero.mpr hT.ne'
    rw [List.map_cons, List.sum_cons, ih, totalErrorsOf_cons, percentageOf, if_pos hT]
    push_cast
    field_simp
    ring

/-- C2 (amended): over any input sequence of at most maxScan records, the sum
of the counts of all aggregated groups equals the reported total_errors and
equals the reported scanned_logs (both equal to the number of scanned records);
for a NONEMPTY input, whenever no truncation to top-N occurs the percentages of
the emitted groups sum to exactly 100 (the Go float64 computation is exact
rational arithmetic here, so "within rounding" is exact); and the caller's
top-K affects only the emitted list, whose length is at most K, never
total_errors or scanned_logs.  (The original claim, without the nonemptiness
proviso, fails on the empty input: see the counterexample.) -/
theorem topErrors_conservation (records : List LogEntry) (p : TopErrorsParams)
    (out : List GroupBuilder)
    (hlen : records.length ≤ maxScan) (hK : 0 < p.limit)
    (hout : AdmissibleEmit (topErrorsOutcome records p).groups
              (topErrorsOutcome records p).limit out) :
    totalErrorsOf (topErrorsOutcome records p).groups
        = (topErrorsOutcome records p).stats.totalErrors
    ∧ (topErrorsOutcome records p).stats.totalErrors
        = (topErrorsOutcome records p).stats.scannedLogs
    ∧ (topErrorsOutcome records p).stats.scannedLogs = records.length
    ∧ (records ≠ [] →
        (topErrorsOutcome records p).groups.length ≤ (topErrorsOutcome records p).limit →
        (out.map (fun g =>
            percentageOf g.count (topErrorsOutcome records p).stats.totalErrors)).sum = 100)
    ∧ out.length ≤ p.limit.toNat
    ∧ (∀ K : Int, (topErrorsOutcome records { p with limit := K }).stats
        = (topErrorsOutcome records p).stats) := by
  obtain ⟨sorted, hperm, hsorted, houtEq⟩ := hout
  have hscan : (topErrorsOutcome records p).stats.scannedLogs = records.length := by
    simp only [topErrorsOutcome, List.length_take]
    omega
  have htot : (topErrorsOutcome records p).stats.totalErrors = records.length := by
    simpa [topErrorsOutcome, List.length_take] using
      (totalErrorsOf_aggregateGroups records (effectiveGroupBy p.groupBy)).trans
        (by simp [List.length_take]; omega)
  refine ⟨rfl, by rw [htot, hscan], hscan, fun hne hfit => ?_, ?_, fun K => rfl⟩
  · have hTpos : 0 < (topErrorsOutcome records p).stats.totalErrors := by
      rw [htot]
      exact List.length_pos.mpr hne
    have hlensorted : sorted.length ≤ (topErrorsOutcome records p).limit := by
      rw [← hperm.length_eq]
      exact hfit
    have hall : sorted.take (topErrorsOutcome records p).limit = sorted :=
      List.take_of_length_le hlensorted
    have houtS : out = sorted := by rw [houtEq, hall]
    have hsum : (out.map (fun g =>
        percentageOf g.count (topErrorsOutcome records p).stats.totalErrors)).sum
        = ((topErrorsOutcome records p).groups.map (fun g =>
            percentageOf g.count (topErrorsOutcome records p).stats.totalErrors)).sum := by
      rw [houtS]
      exact (List.Perm.sum_eq (List.Perm.map _ hperm.symm))
    rw [hsum, sum_percentageOf _ _ hTpos]
    have : (totalErrorsOf (topErrorsOutcome records p).groups : ℚ)
        = ((topErrorsOutcome records p).stats.totalErrors : ℚ) := by norm_cast
    rw [this]
    have hne0 : (((topErrorsOutcome records p).stats.totalErrors : ℚ)) ≠ 0 :=
      Nat.cast_ne_zero.mpr hTpos.ne'
    field_simp
  · have hlimle : (topErrorsOutcome records p).limit ≤ p.limit.toNat := by
      simp only [topErrorsOutcome, clampTopErrorsLimit]
      split_ifs <;> omega
    calc out.length ≤ (topErrorsOutcome records p).limit := by
          rw [houtEq, List.length_take]
          omega
      _ ≤ p.limit.toNat := hlimle

/-- A sample error record in log A, used to exercise the aggregation. -/
def entryA : LogEntry :=
  { timestamp := "2024-01-01T00:00:03Z", severity := "ERROR",
    logName := "projects/p/logs/A", resourceType := "gce_instance",
    textPayload := "boom-a", jsonMessage := none, insertId := "a1" }

/-- A sample error record in log B, used to exercise the aggregation. -/
def entryB : LogEntry :=
  { timestamp := "2024-01-01T00:00:01Z", severity := "ERROR",
    logName := "projects/p/logs/B", resourceType := "cloud_run_revision",
    textPayload := "boom-b", jsonMessage := none, insertId := "b1" }

/-- Five sample records: three in log A, two in log B. -/
def demoRecords : List LogEntry := [entryA, entryA, entryA, entryB, entryB]

/-- Sample top_errors parameters: group by log name, top 10. -/
def demoParams : TopErrorsParams :=
  { projectId := "p", timeRange := { start := "", endStr := "" },
    groupBy := "log_name", limit := 10 }

/-- The aggregates produced from demoRecords: A counted 3 times, B twice. -/
def demoGroups : List GroupBuilder :=
  [{ key := "projects/p/logs/A", count := 3, firstSeen := "2024-01-01T00:00:03Z",
     lastSeen := "2024-01-01T00:00:03Z", sampleEntry := some entryA },
   { key := "projects/p/logs/B", count := 2, firstSeen := "2024-01-01T00:00:01Z",
     lastSeen := "2024-01-01T00:00:01Z", sampleEntry := some entryB }]

lemma aggregateGroups_of_length_le (records : List LogEntry) (groupBy : String)
    (h : records.length ≤ maxScan) :
    aggregateGroups records groupBy
      = records.foldl (fun gs e => upsertGroup e (getGroupKey e groupBy) gs) [] := by
  rw [aggregateGroups, List.take_of_length_le h]

lemma demo_groups_eq : (topErrorsOutcome demoRecords demoParams).groups = demoGroups := by
  have h : (topErrorsOutcome demoRecords demoParams).groups
      = demoRecords.foldl (fun gs e => upsertGroup e (getGroupKey e "log_name") gs) [] := by
    simp only [topErrorsOutcome]
    rw [show effectiveGroupBy demoParams.groupBy = "log_name" by simp [demoParams, effectiveGroupBy]]
    exact aggregateGroups_of_length_le demoRecords "log_name" (by simp [demoRecords, maxScan])
  rw [h]
  simp [demoRecords, getGroupKey, upsertGroup, bumpGroup, entryA, entryB, demoGroups,
    String.lt_irrefl]

lemma demo_limit_eq : (topErrorsOutcome demoRecords demoParams).limit = 10 := by
  decide

/-- Witness for topErrors_conservation on the five demoRecords (three in log A,
two in log B), top-10, emitting both groups. -/
theorem topErrors_conservation_witness :
    (demoRecords.length ≤ maxScan ∧ 0 < demoParams.limit
      ∧ AdmissibleEmit (topErrorsOutcome demoRecords demoParams).groups
          (topErrorsOutcome demoRecords demoParams).limit demoGroups)
    ∧ (totalErrorsOf (topErrorsOutcome demoRecords demoParams).groups
        = (topErrorsOutcome demoRecords demoParams).stats.totalErrors
      ∧ (topErrorsOutcome demoRecords demoParams).stats.totalErrors
        = (topErrorsOutcome demoRecords demoParams).stats.scannedLogs
      ∧ (topErrorsOutcome demoRecords demoParams).stats.scannedLogs = demoRecords.length
      ∧ (demoRecords ≠ [] →
          (topErrorsOutcome demoRecords demoParams).groups.length
            ≤ (topErrorsOutcome demoRecords demoParams).limit →
          (demoGroups.map (fun g =>
              percentageOf g.count
                (topErrorsOutcome demoRecords demoParams).stats.totalErrors)).sum = 100)
      ∧ demoGroups.length ≤ demoParams.limit.toNat
      ∧ (∀ K : Int, (topErrorsOutcome demoRecords { demoParams with limit := K }).stats
          = (topErrorsOutcome demoRecords demoParams).stats)) := by
  have hemit : AdmissibleEmit (topErrorsOutcome demoRecords demoParams).groups
      (topErrorsOutcome demoRecords demoParams).limit demoGroups := by
    refine ⟨demoGroups, ?_, ?_, ?_⟩
    · rw [demo_groups_eq]
    · simp [SortedByCountDesc, List.pairwise_cons, demoGroups]
    · rw [demo_limit_eq]
      simp [demoGroups]
  exact ⟨⟨by decide, by decide, hemit⟩,
    topErrors_conservation demoRecords demoParams demoGroups (by decide) (by decide) hemit⟩

/-- Counterexample to C2 as stated: on the empty input sequence (which has at
most maxScan records, and for which no truncation to top-N occurs) the emitted
group list is empty and its percentages sum to 0, not 100. -/
theorem topErrors_percentage_empty_counterexample :
    ([] : List LogEntry).length ≤ maxScan
    ∧ AdmissibleEmit (topErrorsOutcome [] demoParams).groups
        (topErrorsOutcome [] demoParams).limit []
    ∧ (topErrorsOutcome [] demoParams).groups.length ≤ (topErrorsOutcome [] demoParams).limit
    ∧ (((List.map (fun g =>
          percentageOf g.count (topErrorsOutcome [] demoParams).stats.totalErrors)
          ([] : List GroupBuilder)).sum = 100) → False) := by
  refine ⟨by decide, ⟨[], ?_, ?_, ?_⟩, by decide, ?_⟩
  · exact List.Perm.refl _
  · exact List.Pairwise.nil
  · simp
  · intro h
    norm_num at h

/-- The aggregate for entryA alone (count 1). -/
def groupA1 : GroupBuilder :=
  { key := "projects/p/logs/A", count := 1, firstSeen := "2024-01-01T00:00:03Z",
    lastSeen := "2024-01-01T00:00:03Z", sampleEntry := some entryA }

/-- The aggregate for entryB alone (count 1). -/
def groupB1 : GroupBuilder :=
  { key := "projects/p/logs/B", count := 1, firstSeen := "2024-01-01T00:00:01Z",
    lastSeen := "2024-01-01T00:00:01Z", sampleEntry := some entryB }

/-- C3 fails on the code: on the input scanning entryA before entryB (two
distinct groups of equal count 1), both emission orders are admissible
behaviours of the Go code — the group slice is built by ranging over a map in
unspecified order and sorted with the non-stable sort.Slice, whose guarantee
(count descending) does not separate equal counts.  Hence the emitted ordering
of equal-count groups is not determined by the input sequence, and in
particular is not always the first-encountered (scan) order. -/
theorem topErrors_tie_order_not_deterministic :
    aggregateGroups [entryA, entryB] "log_name" = [groupA1, groupB1]
    ∧ AdmissibleEmit (aggregateGroups [entryA, entryB] "log_name") 10 [groupA1, groupB1]
    ∧ AdmissibleEmit (aggregateGroups [entryA, entryB] "log_name") 10 [groupB1, groupA1]
    ∧ [groupA1, groupB1] ≠ [groupB1, groupA1] := by
  have hgs : aggregateGroups [entryA, entryB] "log_name" = [groupA1, groupB1] := by
    rw [aggregateGroups_of_length_le [entryA, entryB] "log_name" (by simp [maxScan])]
    simp [getGroupKey, upsertGroup, bumpGroup, entryA, entryB, groupA1, groupB1]
  refine ⟨hgs,
    ⟨[groupA1, groupB1], by rw [hgs],
      by simp [SortedByCountDesc, List.pairwise_cons, groupA1, groupB1], by simp⟩,
    ⟨[groupB1, groupA1], ?_,
      by simp [SortedByCountDesc, List.pairwise_cons, groupA1, groupB1], by simp⟩,
    by simp [groupA1, groupB1]⟩
  rw [hgs]
  exact List.Perm.swap groupB1 groupA1 []

/-- C8: the top-errors scan consumes at most the fixed hard cap maxScan = 1000
records (the reported scanned_logs equals min(input length, 1000) and never
exceeds 1000), records beyond the cap never influence the aggregates even if
the upstream source yields more, and the cap is independent of the
caller-requested limit: changing the requested limit leaves the whole stats
block (and scanned_logs in particular) unchanged. -/
theorem topErrors_scan_cap (records : List LogEntry) (p : TopErrorsParams) (K1 K2 : Int) :
    (topErrorsOutcome records p).stats.scannedLogs ≤ maxScan
    ∧ (topErrorsOutcome records p).stats.scannedLogs = min records.length maxScan
    ∧ (topErrorsOutcome records p).groups = (topErrorsOutcome (records.take maxScan) p).groups
    ∧ (topErrorsOutcome records { p with limit := K1 }).stats
        = (topErrorsOutcome records { p with limit := K2 }).stats := by
  refine ⟨?_, ?_, ?_, rfl⟩
  · simp only [topErrorsOutcome, List.length_take]
    omega
  · simp only [topErrorsOutcome, List.length_take]
    omega
  · simp [topErrorsOutcome, aggregateGroups, List.take_take]

/-! ## MCP protocol engine (internal/mcp/server.go)

The JSON wire format is external (encoding/json); a request line is embedded by
the outcome of decoding it.  Request ids are Go `any` values echoed verbatim;
they are embedded as the literal JSON text of the id when present.  The raw
`params` of a request are embedded by the outcome of unmarshalling them into
ToolCallParams, which is the only decoding the server performs on them. -/

/-- mcp.Error: a JSON-RPC error object. -/
structure MCPError where
  code : Int
  message : String
  data : Option String := none
deriving DecidableEq

/-- mcp.ContentBlock of a tool-call result. -/
structure ContentBlock where
  type : String
  text : String
deriving DecidableEq

/-- mcp.ToolCallResult: the payload of a tools/call result; IsError is false
unless set (Go zero value). -/
structure ToolCallResult where
  content : List ContentBlock
  isError : Bool := false
deriving DecidableEq

/-- mcp.ServerInfo. -/
structure ServerInfo where
  name : String
  version : String
deriving DecidableEq

/-- mcp.InitializeResult: protocol version, capability advertisement (the tools
capability object, present), server identity. -/
structure InitResult where
  protocolVersion : String
  toolsCapability : Bool
  serverInfo : ServerInfo
deriving DecidableEq

/-- mcp.Property: one node of a tool input schema's nested property tree. -/
inductive PropertySchema where
  | node (type : String) (description : String)
      (properties : List (String × PropertySchema)) (required : List String)

/-- mcp.ToolSchema: the top level of a tool's input schema. -/
structure ToolSchema where
  type : String
  properties : List (String × PropertySchema)
  required : List String

/-- mcp.Tool: a registered tool descriptor. -/
structure Tool where
  name : String
  description : String
  inputSchema : ToolSchema

/-- mcp.ToolCallParams: the decoded params of a tools/call request; arguments
is the raw JSON text forwarded to the handler. -/
structure ToolCallParams where
  name : String
  arguments : String
deriving DecidableEq

/-- The raw params of a request, embedded by the outcome of the only decoding
the server applies to them (json.Unmarshal into ToolCallParams inside
handleToolsCall): either that decoding fails with a message, or it yields
ToolCallParams.  Methods other than tools/call never inspect params. -/
inductive RawParams where
  | undecodable (parseErr : String)
  | toolCall (p : ToolCallParams)

/-- mcp.Request: id (echoed verbatim; none when absent), method, raw params. -/
structure Request where
  id : Option String
  method : String
  params : RawParams

/-- The result payload of a response, per method (Go stores `any`; the values
actually assigned are exactly these three shapes). -/
inductive ResultPayload where
  | initResult (r : InitResult)
  | toolsList (tools : List Tool)
  | toolCall (r : ToolCallResult)

/-- mcp.Response: id plus result or error (absent fields are none). -/
structure Response where
  id : Option String
  result : Option ResultPayload := none
  error : Option MCPError := none

/-- mcp.ToolHandler: a handler takes the raw argument text and returns a result
value (represented by its JSON encoding input) or an error message. -/
def ToolHandler := String → Except String String

/-- mcp.Server: identity, registered tool descriptors in registration order,
the name-to-handler map (association list), and the json.MarshalIndent step
for result values, modelled as an encoding oracle that may fail. -/
structure Server where
  name : String
  version : String
  tools : List Tool
  handlers : List (String × ToolHandler)
  marshal : String → Except String String

/-- Server.handleInitialize: protocol version 2024-11-05, tools capability,
server identity, echoing the request id. -/
def handleInit (s : Server) (id : Option String) : Response :=
  { id := id,
    result := some (.initResult
      { protocolVersion := "2024-11-05", toolsCapability := true,
        serverInfo := { name := s.name, version := s.version } }) }

/-- Server.handleToolsList: the registered descriptors, in registration order. -/
def handleToolsList (s : Server) (id : Option String) : Response :=
  { id := id, result := some (.toolsList s.tools) }

/-- Server.handleToolsCall: decode params (invalid params on failure), look up
the handler (invalid params naming the unknown tool), run it (handler errors
and marshal errors become successful envelopes whose ToolCallResult is marked
isError with human-readable text), else wrap the marshalled payload. -/
def handleToolsCall (s : Server) (id : Option String) (params : RawParams) : Response :=
  match params with
  | .undecodable e =>
    { id := id, error := some { code := -32602, message := "Invalid params", data := some e } }
  | .toolCall p =>
    match s.handlers.lookup p.name with
    | none =>
      { id := id, error := some { code := -32602, message := "Unknown tool: " ++ p.name } }
    | some h =>
      match h p.arguments with
      | .error e =>
        { id := id,
          result := some (.toolCall
            { content := [⟨"text", "Error: " ++ e⟩], isError := true }) }
      | .ok v =>
        match s.marshal v with
        | .error e =>
          { id := id,
            result := some (.toolCall
              { content := [⟨"text", "Error marshaling result: " ++ e⟩], isError := true }) }
        | .ok txt =>
          { id := id, result := some (.toolCall { content := [⟨"text", txt⟩] }) }

/-- Server.handleRequest: dispatch by method name; the initialized notification
produces no response; unrecognized methods produce a method-not-found error. -/
def handleRequest (s : Server) (req : Request) : Option Response :=
  if req.method = "initialize" then some (handleInit s req.id)
  else if req.method = "initialized" then none
  else if req.method = "tools/list" then some (handleToolsList s req.id)
  else if req.method = "tools/call" then some (handleToolsCall s req.id req.params)
  else some { id := req.id, error := some { code := -32601, message := "Method not found" } }

/-- One iteration of Server.Run for one input line, embedded by the outcome of
json.Unmarshal on the line: a line that fails to decode is answered by
sendError(nil, -32700, "Parse error", err) with no id; a decoded request goes
through handleRequest, and a nil return sends nothing. -/
def processLine (s : Server) (line : Except String Request) : Option Response :=
  match line with
  | .error e =>
    some { id := none,
           error := some { code := -32700, message := "Parse error", data := some e } }
  | .ok req => handleRequest s req

/-- C1: whenever a tools/call request names a registered tool and that tool's
handler returns an error (guardrail rejection, time-range parse failure, or
upstream failure all surface as handler errors), the engine's response is a
successful envelope: its result is a ToolCallResult whose isError flag is set
and whose content is the human-readable text "Error: " followed by the handler
message, and its protocol-level error field is none. -/
theorem toolsCall_handler_error_envelope (s : Server) (req : Request) (p : ToolCallParams)
    (h : ToolHandler) (e : String)
    (hmethod : req.method = "tools/call")
    (hparams : req.params = .toolCall p)
    (hlookup : s.handlers.lookup p.name = some h)
    (herr : h p.arguments = .error e) :
    processLine s (.ok req) =
      some { id := req.id,
             result := some (.toolCall
               { content := [⟨"text", "Error: " ++ e⟩], isError := true }),
             error := none } := by
  simp [processLine, handleRequest, hmethod, handleToolsCall, hparams, hlookup, herr]

/-- A handler that always fails, standing in for a guardrail rejection. -/
def rejectingHandler : ToolHandler :=
  fun _ => .error "project_id is not in the allowed list"

/-- A server with one registered tool whose handler always fails. -/
def demoServer : Server :=
  { name := "google-cloud-ops-mcp", version := "0.1.0", tools := [],
    handlers := [("logging.query", rejectingHandler)],
    marshal := fun v => .ok v }

/-- Witness for toolsCall_handler_error_envelope: calling the registered tool
logging.query on demoServer yields the isError envelope with the handler's
message and no protocol-level error. -/
theorem toolsCall_handler_error_envelope_witness :
    processLine demoServer
        (.ok { id := some "1", method := "tools/call",
               params := .toolCall { name := "logging.query", arguments := "" } }) =
      some { id := some "1",
             result := some (.toolCall
               { content := [⟨"text", "Error: project_id is not in the allowed list"⟩],
                 isError := true }),
             error := none } :=
  toolsCall_handler_error_envelope demoServer
    { id := some "1", method := "tools/call",
      params := .toolCall { name := "logging.query", arguments := "" } }
    { name := "logging.query", arguments := "" }
    rejectingHandler "project_id is not in the allowed list" rfl rfl (by simp [demoServer]) rfl

/-- C9: protocol framing.  A line that is not valid JSON (its decoding fails)
is answered with the parse-error code -32700 and a null id; a tools/call
naming an unregistered tool is answered with the invalid-params code -32602
and a message identifying the unknown name; an initialized notification is
answered with nothing at all. -/
theorem protocol_framing (s : Server) (e : String) (req1 req2 : Request) (p : ToolCallParams)
    (h1 : req1.method = "initialized")
    (h2 : req2.method = "tools/call") (hp : req2.params = .toolCall p)
    (hunknown : s.handlers.lookup p.name = none) :
    processLine s (.error e) =
      some { id := none,
             error := some { code := -32700, message := "Parse error", data := some e } }
    ∧ processLine s (.ok req1) = none
    ∧ processLine s (.ok req2) =
        some { id := req2.id,
               error := some { code := -32602, message := "Unknown tool: " ++ p.name } } := by
  refine ⟨rfl, ?_, ?_⟩
  · simp [processLine, handleRequest, h1]
  · simp [processLine, handleRequest, h2, handleToolsCall, hp, hunknown]

/-- Witness for protocol_framing on demoServer: an undecodable line, an
initialized notification, and a tools/call naming the unregistered tool
"nope". -/
theorem protocol_framing_witness :
    processLine demoServer (.error "unexpected end of JSON input") =
      some { id := none,
             error := some { code := -32700, message := "Parse error",
                             data := some "unexpected end of JSON input" } }
    ∧ processLine demoServer
        (.ok { id := none, method := "initialized", params := .undecodable "" }) = none
    ∧ processLine demoServer
        (.ok { id := some "2", method := "tools/call",
               params := .toolCall { name := "nope", arguments := "" } }) =
        some { id := some "2",
               error := some { code := -32602, message := "Unknown tool: " ++ "nope" } } :=
  protocol_framing demoServer "unexpected end of JSON input"
    { id := none, method := "initialized", params := .undecodable "" }
    { id := some "2", method := "tools/call",
      params := .toolCall { name := "nope", arguments := "" } }
    { name := "nope", arguments := "" }
    rfl rfl rfl (by simp [demoServer])
